import Mathlib

/-!
Verification of `scripts/update-reading.py`, the script that regenerates the
"Reading Now" card of `index.html` from `scripts/reading.yaml`.

The script is embedded shallowly:
* `parse_yaml` — the hand-rolled YAML reader (regex searches are embedded as
  specialised scanning functions over `List Char` that follow Python `re`
  leftmost-match / greedy / lazy semantics for the exact patterns used);
* `get_image_src`, `generate_html` — the pure renderer (Python f-strings
  become explicit `String` concatenation; the `IndexError` that an empty
  book list raises in the `else` branch becomes `Option.none`);
* `update_html` — the text transformation applied to `index.html`:
  `re.sub` on the pattern `<!-- Reading Now -->.*?<!-- Latest Creative Work -->`
  with `re.DOTALL` first compiles its replacement template
  (`parseTemplate`, the embedding of `re._parser.parse_template` for this
  zero-group pattern: backslash escapes become characters, `\g<0>` the
  whole match, and bad escapes or group references raise `re.error` even
  when the pattern never matches), then replaces every non-overlapping
  leftmost match (`pyResub`), scanning left to right and resuming after
  each replacement.  The file writes of `update_html` are modelled as an
  explicit write trace (`update_html_writes`).
-/

/-! ## Character-level helpers (Python `\s`, `str.strip`) -/

/-- Python `\s` for the ASCII range: space, tab, newline, carriage return,
vertical tab, form feed. -/
def isSpaceChar (c : Char) : Bool :=
  c = ' ' || c = '\t' || c = '\n' || c = '\r' || c = '\x0b' || c = '\x0c'

/-- Maximal-munch `\s*`: drop the leading whitespace run. -/
def dropSpaces (l : List Char) : List Char := l.dropWhile isSpaceChar

/-- Python `str.strip()`: remove leading and trailing whitespace. -/
def stripChars (l : List Char) : List Char :=
  ((l.dropWhile isSpaceChar).reverse.dropWhile isSpaceChar).reverse

/-! ## Regex-search embedding for the patterns used by `parse_yaml`

`re.search` semantics: candidate start positions are tried left to right
(for `re.MULTILINE` patterns anchored with `^`, only line starts).  For the
patterns at hand, backtracking resolves deterministically, which is proved
case by case in the comments of the matchers below. -/

/-- Try a matcher at every position of the input, left to right, including
the empty suffix — exactly `re.search`'s scan order for an unanchored
pattern. -/
def searchAt (m : List Char → Option (List Char)) : List Char → Option (List Char)
  | [] => m []
  | c :: cs =>
    match m (c :: cs) with
    | some v => some v
    | none => searchAt m cs

/-- Fuel-indexed worker for `searchLineStarts`: try the matcher at the
current line start, else skip to just after the next newline.  Each step
consumes at least one character, so fuel `l.length + 1` never runs out. -/
def searchLineStartsAux (m : List Char → Option (List Char)) :
    Nat → List Char → Option (List Char)
  | 0, _ => none
  | fuel + 1, l =>
    match m l with
    | some v => some v
    | none =>
      match l.dropWhile (fun c => c ≠ '\n') with
      | [] => none
      | _ :: rest => searchLineStartsAux m fuel rest

/-- Try a matcher at every line start (position 0 and each position directly
after a newline), left to right — `re.search` with `re.MULTILINE` for a
pattern anchored with `^`. -/
def searchLineStarts (m : List Char → Option (List Char)) (l : List Char) :
    Option (List Char) :=
  searchLineStartsAux m (l.length + 1) l

/-- The tail of `"(.+)"` (no `$`): the opening quote has been consumed; the
greedy `.+` runs to the end of the line and backtracks to the last `"` of
the line that leaves a nonempty group.  Returns the group. -/
def quotedGroup (afterQuote : List Char) : Option (List Char) :=
  let line := afterQuote.takeWhile (fun c => c ≠ '\n')
  match line.reverse.dropWhile (fun c => c ≠ '"') with
  | [] => none
  | _ :: restRev => if restRev.isEmpty then none else some restRev.reverse

/-- The tail of `"(.+)"$`: as `quotedGroup`, but `$` forces the closing
quote to be the last character of the line. -/
def quotedGroupEOL (afterQuote : List Char) : Option (List Char) :=
  let line := afterQuote.takeWhile (fun c => c ≠ '\n')
  match line.reverse with
  | '"' :: restRev => if restRev.isEmpty then none else some restRev.reverse
  | _ => none

/-- The literal `<field>:` that opens each of the field patterns. -/
def fieldColon (f : String) : List Char := (f ++ ":").data

/-- Match `rf'{field}:\s*"(.+)"'` at the head of `l`.  `\s*` is
deterministic here (maximal munch; giving back a whitespace character can
never produce the required `"`), and it may cross newlines. -/
def matchFieldQuotedAt (f : String) (l : List Char) : Option (List Char) :=
  if (fieldColon f).isPrefixOf l then
    match dropSpaces (l.drop (fieldColon f).length) with
    | '"' :: rest => quotedGroup rest
    | _ => none
  else none

/-- Match `rf'{field}:\s*(.+?)(?:\n|$)'` at the head of `l`.  With input
left after the whitespace run, greedy `\s*` takes the whole run and the
lazy `(.+?)` then extends to the end of that line.  When the input ends
inside the whitespace run, the engine backtracks `\s*` from the right and
the group resolves to the last non-newline whitespace character, if any
(the stripped value is `""` in every such case). -/
def matchFieldUnquotedAt (f : String) (l : List Char) : Option (List Char) :=
  if (fieldColon f).isPrefixOf l then
    let r := l.drop (fieldColon f).length
    match dropSpaces r with
    | [] =>
      match (r.filter (fun c => c ≠ '\n')).getLast? with
      | some c => some [c]
      | none => none
    | c :: cs => some ((c :: cs).takeWhile (fun c => c ≠ '\n'))
  else none

/-- Match `r'^summary:\s*"(.+)"$'` at a line start (the `^` itself is
handled by `searchLineStarts`). -/
def matchSummaryQuotedAt (l : List Char) : Option (List Char) :=
  if (fieldColon "summary").isPrefixOf l then
    match dropSpaces (l.drop (fieldColon "summary").length) with
    | '"' :: rest => quotedGroupEOL rest
    | _ => none
  else none

/-! ## The data model and `parse_yaml` -/

/-- One record of `reading.yaml`: the six fields `parse_yaml` extracts per
book block; each missing field is stored as `""`. -/
structure Book where
  title : String
  author : String
  image : String
  buy_url : String
  buy_label : String
  description : String
deriving Repr, DecidableEq

/-- The dictionary `parse_yaml` returns: `{"books": [...], "summary": ""}`. -/
structure ReadingData where
  books : List Book
  summary : String
deriving Repr, DecidableEq

/-- Match the separator regex `r'\n\s*-\s+title:'` of `re.split` at the head
of `l`; on success return the remainder of the input after the match (both
`\s*` and `\s+` resolve by maximal munch: the characters that follow them
in the pattern, `-` and `t`, are not whitespace). -/
def matchBookSep (l : List Char) : Option (List Char) :=
  match l with
  | '\n' :: r =>
    match dropSpaces r with
    | '-' :: r2 =>
      if (r2.takeWhile isSpaceChar).isEmpty then none
      else
        let r3 := r2.dropWhile isSpaceChar
        if ("title:".data).isPrefixOf r3 then some (r3.drop ("title:".data).length)
        else none
    | _ => none
  | _ => none

/-- Embedding of `re.split(r'\n\s*-\s+title:', content)`: the pieces between successive
non-overlapping leftmost matches of the separator.  Fuel is the input
length plus one; each separator match consumes at least eight characters,
so the fuel never runs out on the initial call. -/
def splitBooksAux (fuel : Nat) (acc : List Char) (l : List Char) : List (List Char) :=
  match fuel with
  | 0 => [acc.reverse ++ l]
  | fuel + 1 =>
    match l with
    | [] => [acc.reverse]
    | c :: cs =>
      match matchBookSep (c :: cs) with
      | some rest => acc.reverse :: splitBooksAux fuel [] rest
      | none => splitBooksAux fuel (c :: acc) cs

/-- Embedding of `re.split(r'\n\s*-\s+title:', content)`. -/
def splitBooks (content : List Char) : List (List Char) :=
  splitBooksAux (content.length + 1) [] content

/-- Extraction of one field from a book block: the double-quoted pattern is
tried first, then the unquoted fallback, and a block with no match for the
field yields `""` (lines 48-59 of the script). -/
def parseField (f : String) (block : List Char) : String :=
  match searchAt (matchFieldQuotedAt f) block with
  | some v => ⟨stripChars v⟩
  | none =>
    match searchAt (matchFieldUnquotedAt f) block with
    | some v => ⟨stripChars v⟩
    | none => ""

/-- One book block: `"title:"` (the split delimiter) is prepended back, then
each of the six fields is extracted. -/
def parseBook (block : List Char) : Book :=
  let b := "title:".data ++ block
  { title := parseField "title" b
    author := parseField "author" b
    image := parseField "image" b
    buy_url := parseField "buy_url" b
    buy_label := parseField "buy_label" b
    description := parseField "description" b }

/-- Embedding of `parse_yaml` on the file contents: the summary (quoted pattern first,
unquoted fallback, absent summary gives `""`), then the book blocks
(everything before the first separator is discarded, Python's `[1:]`). -/
def parse_yaml (content : List Char) : ReadingData :=
  let summary : String :=
    match searchLineStarts matchSummaryQuotedAt content with
    | some v => ⟨stripChars v⟩
    | none =>
      match searchLineStarts (matchFieldUnquotedAt "summary") content with
      | some v => ⟨stripChars v⟩
      | none => ""
  { books := ((splitBooks content).drop 1).map parseBook
    summary := summary }

/-! ## The renderer: `get_image_src` and `generate_html` -/

/-- Embedding of `get_image_src` (lines 66-70): a value that starts with an HTTP/HTTPS
scheme is used as-is, anything else is rewritten to `/assets/img/<value>`
(Python `str.startswith` on a tuple is prefix testing on the text). -/
def get_image_src (image_value : String) : String :=
  if "http://".data.isPrefixOf image_value.data
      || "https://".data.isPrefixOf image_value.data then
    image_value
  else
    "/assets/img/" ++ image_value

/-- The one-book image f-string (lines 82-83), as a function of the title
and the already resolved `image_src`. -/
def img_one (title image_src : String) : String :=
  "<img alt=\"" ++ title ++ "\" src=\"" ++ image_src
    ++ "\" style=\"width: 100%;\"\n                    class=\"activator\">"

/-- The two-book image f-string (lines 87-92), as a function of the two
titles and the two already resolved sources `image_src_0`, `image_src_1`. -/
def img_two (title0 image_src_0 title1 image_src_1 : String) : String :=
  "<div style=\"display: flex; justify-content: space-between;\">\n                  <img alt=\""
    ++ title0 ++ "\" src=\"" ++ image_src_0
    ++ "\" style=\"width: 48%;\"\n                    class=\"activator\">\n                  <img alt=\""
    ++ title1 ++ "\" src=\"" ++ image_src_1
    ++ "\"\n                    style=\"width: 48%;\" class=\"activator\">\n                </div>"

/-- The image section (lines 80-92).  One book renders a single full-width
`<img>`; any other count takes the `else` branch, which subscripts
`books[0]` and `books[1]` — on fewer than two books that raises
`IndexError`, modelled as `none`.  As in the source, `get_image_src` is
applied to each book's own `image` field separately. -/
def image_html (books : List Book) : Option String :=
  if books.length == 1 then
    (books[0]?).map (fun b0 => img_one b0.title (get_image_src b0.image))
  else
    match books[0]?, books[1]? with
    | some b0, some b1 =>
      some (img_two b0.title (get_image_src b0.image) b1.title (get_image_src b1.image))
    | _, _ => none

/-- One entry of the details list (lines 96-102): `Title (Author): Desc`
when the author string is truthy (nonempty), else `Title: Desc`. -/
def detail_item (book : Book) : String :=
  if book.author ≠ "" then
    "<li>" ++ book.title ++ " (" ++ book.author ++ "): " ++ book.description ++ "</li>"
  else
    "<li>" ++ book.title ++ ": " ++ book.description ++ "</li>"

/-- The `details_items` list built by the loop of lines 95-102: one item per
book, in input order. -/
def details_items (books : List Book) : List String :=
  books.map detail_item

/-- Line 103: the items joined with newline plus 18 spaces. -/
def details_html (books : List Book) : String :=
  String.intercalate "\n                  " (details_items books)

/-- One action button (lines 108-115). -/
def action_item (book : Book) : String :=
  "<a aria-label=\"Find `" ++ book.title ++ "` on " ++ book.buy_label
    ++ "\"\n                    href=\"" ++ book.buy_url
    ++ "\" target=\"_blank\"\n                    data-position=\"top\" data-tooltip=\"Find `"
    ++ book.title ++ "` on " ++ book.buy_label
    ++ "\"\n                    class=\"btn-floating btn-large waves-effect waves-light blue-grey tooltipped\">\n                    <i class=\"fa fa-book\"></i>\n                  </a>"

/-- The `action_items` list built by the loop of lines 106-115: one button
per book, in input order. -/
def action_items (books : List Book) : List String :=
  books.map action_item

/-- Line 116: the buttons joined with newline plus 18 spaces. -/
def actions_html (books : List Book) : String :=
  String.intercalate "\n                  " (action_items books)

/-- The literal start marker `<!-- Reading Now -->` that opens the card
template (line 119). -/
def startMarkerS : String := "<!-- Reading Now -->"

/-- The literal end marker `<!-- Latest Creative Work -->` that closes the
card template (line 147). -/
def endMarkerS : String := "<!-- Latest Creative Work -->"

/-- Card template, literal text between the start marker and `{image_html}`. -/
def cardChunk1 : String :=
  "\n          <div class=\"col s12 m6 l4\">\n            <div class=\"card medium\">\n              <div class=\"card-image waves-effect waves-block waves-light\">\n                "

/-- Card template, literal text between `{image_html}` and `{summary}`. -/
def cardChunk2 : String :=
  "\n              </div>\n              <div class=\"card-content\">\n                <span class=\"card-title activator teal-text hoverline\">Reading Now\n                  <i class=\"mdi-navigation-more-vert right\"></i>\n                </span>\n                <p>\n                  "

/-- Card template, literal text between `{summary}` and `{details_html}`. -/
def cardChunk3 : String :=
  "\n                </p>\n              </div>\n              <div class=\"card-reveal\">\n                <span class=\"card-title grey-text\">\n                  <small>Details</small>\n                  <i class=\"mdi-navigation-close right\"></i>\n                </span>\n                <ul>\n                  "

/-- Card template, literal text between `{details_html}` and `{actions_html}`. -/
def cardChunk4 : String :=
  "\n                </ul>\n                <div class=\"card-action\">\n                  "

/-- Card template, literal text between `{actions_html}` and the end marker. -/
def cardChunk5 : String :=
  "\n                </div>\n              </div>\n            </div>\n          </div>\n          "

/-- Embedding of `generate_html` (lines 73-147): the full card f-string, which opens with
the start marker and closes with the end marker.  The only partiality is the
image section's `IndexError` on fewer books than its branch subscripts. -/
def generate_html (data : ReadingData) : Option String :=
  (image_html data.books).map (fun ih =>
    startMarkerS ++ cardChunk1 ++ ih ++ cardChunk2 ++ data.summary
      ++ cardChunk3 ++ details_html data.books ++ cardChunk4
      ++ actions_html data.books ++ cardChunk5 ++ endMarkerS)

/-- The interior of the rendered card: everything strictly between the two
markers.  `generate_html` is exactly `startMarkerS ++ card_body ++ endMarkerS`
(proved in `generate_html_decomp`). -/
def card_body (data : ReadingData) : Option String :=
  (image_html data.books).map (fun ih =>
    cardChunk1 ++ ih ++ cardChunk2 ++ data.summary
      ++ cardChunk3 ++ details_html data.books ++ cardChunk4
      ++ actions_html data.books ++ cardChunk5)

/-! ## The patch: `update_html` and the embedding of `re.sub` -/

/-- Tail-recursive scanner behind `splitFirst`; `acc` holds the characters
already scanned past, in reverse (tail recursion keeps concrete evaluation
stack-friendly). -/
def splitFirstAux (pat : List Char) (acc : List Char) : List Char → Option (List Char × List Char)
  | [] => if pat.isPrefixOf ([] : List Char) then some (acc.reverse, []) else none
  | c :: cs =>
    if pat.isPrefixOf (c :: cs) then some (acc.reverse, (c :: cs).drop pat.length)
    else splitFirstAux pat (c :: acc) cs

/-- Split a list around the leftmost occurrence of `pat`: `some (p, r)`
with `l = p ++ pat ++ r` and no occurrence of `pat` starting earlier. -/
def splitFirst (pat l : List Char) : Option (List Char × List Char) :=
  splitFirstAux pat [] l

/-- Structural-recursion reference version of `splitFirst`, used for the
inductive proofs; `splitFirst_eq_go` identifies the two. -/
def splitFirstGo (pat : List Char) : List Char → Option (List Char × List Char)
  | [] => if pat.isPrefixOf ([] : List Char) then some ([], []) else none
  | c :: cs =>
    if pat.isPrefixOf (c :: cs) then some ([], (c :: cs).drop pat.length)
    else
      match splitFirstGo pat cs with
      | some (p, r) => some (c :: p, r)
      | none => none

/-- Tail-recursive character-list equality, used to evaluate concrete
inequalities without deep recursion. -/
def eqChars : List Char → List Char → Bool
  | [], [] => true
  | a :: as, b :: bs => if a = b then eqChars as bs else false
  | _, _ => false

/-- Comparison of patch results by `eqChars`, ignoring error messages;
reflexive, so a `false` verdict refutes equality. -/
def eqExceptChars : Except String (List Char) → Except String (List Char) → Bool
  | Except.ok a, Except.ok b => eqChars a b
  | Except.error _, Except.error _ => true
  | _, _ => false

/-- Whether `pat` occurs as a contiguous run inside `l`. -/
def containsSub (pat l : List Char) : Bool :=
  (splitFirst pat l).isSome

/-- The marker pair of the `re.sub` pattern
`r"<!-- Reading Now -->.*?<!-- Latest Creative Work -->"`, as character
lists. -/
def startMarker : List Char := startMarkerS.data

/-- The end marker as a character list. -/
def endMarker : List Char := endMarkerS.data

/-- One chunk of a compiled `re.sub` replacement template.  The sub
pattern `<!-- Reading Now -->.*?<!-- Latest Creative Work -->` has no
capture groups, so the only group a template can reference is group 0,
the whole match. -/
inductive ReplChunk where
  | lit (c : Char)
  | group0
deriving Repr, DecidableEq

/-- A replacement with no backslash compiles to this all-literal template. -/
def litTemplate (l : List Char) : List ReplChunk := l.map ReplChunk.lit

/-- Octal digit test for replacement-template escapes. -/
def isOctChar (c : Char) : Bool := '0' ≤ c && c ≤ '7'

/-- Value of an octal digit. -/
def octVal (c : Char) : Nat := c.toNat - 48

/-- Value of a run of decimal digits. -/
def digitsVal (l : List Char) : Nat := l.foldl (fun n c => 10 * n + (c.toNat - 48)) 0

/-- The `ESCAPES` table of `re._parser` used by `parse_template`:
`\a \b \f \n \r \t \v \\` become single characters. -/
def escChar (c : Char) : Option Char :=
  if c = 'a' then some (Char.ofNat 7)
  else if c = 'b' then some (Char.ofNat 8)
  else if c = 'f' then some (Char.ofNat 12)
  else if c = 'n' then some (Char.ofNat 10)
  else if c = 'r' then some (Char.ofNat 13)
  else if c = 't' then some (Char.ofNat 9)
  else if c = 'v' then some (Char.ofNat 11)
  else if c = '\\' then some '\\'
  else none

/-- Worker for `parseTemplate`, the embedding of
`re._parser.parse_template` specialised to a pattern with no capture
groups.  Per escape, following CPython (verified against 3.11):
`\g<number>` resolves group 0 for a digit-only name evaluating to zero and
is an error otherwise (named groups do not exist in this pattern; CPython
3.11 additionally tolerates deprecated spellings such as `\g<+0>`, removed
in later versions, which are treated as errors here); `\0` plus up to two
octal digits is an octal character escape; `\` and one or two decimal
digits is a group reference — always an invalid group for this pattern —
except that three octal digits form a character escape (error above
`0o377`); `\a \b \f \n \r \t \v \\` are character escapes; `\` plus
another ASCII letter is a bad escape (error); `\` plus any other character
is kept as the two characters themselves.  A trailing `\` is an error.
Each step consumes at least one character, so fuel `length + 1` suffices;
the accumulator keeps evaluation tail-recursive. -/
def parseTemplateAux (fuel : Nat) (acc : List ReplChunk) (l : List Char) :
    Except String (List ReplChunk) :=
  match fuel with
  | 0 => Except.error "replacement template: out of fuel"
  | fuel + 1 =>
    match l with
    | [] => Except.ok acc.reverse
    | c :: rest =>
      if c = '\\' then
        match rest with
        | [] => Except.error "bad escape (end of pattern)"
        | e1 :: rest2 =>
          if e1 = 'g' then
            match rest2 with
            | '<' :: rest3 =>
              if (rest3.takeWhile (fun c => c ≠ '>')).length = rest3.length then
                Except.error "missing >, unterminated name"
              else
                let name := rest3.takeWhile (fun c => c ≠ '>')
                let rest4 := (rest3.dropWhile (fun c => c ≠ '>')).drop 1
                if name.isEmpty then Except.error "missing group name"
                else if name.all Char.isDigit then
                  if digitsVal name = 0 then
                    parseTemplateAux fuel (ReplChunk.group0 :: acc) rest4
                  else Except.error "invalid group reference"
                else Except.error "unknown group name"
            | _ => Except.error "missing <"
          else if e1 = '0' then
            match rest2 with
            | d1 :: d2 :: rest3 =>
              if isOctChar d1 && isOctChar d2 then
                parseTemplateAux fuel
                  (ReplChunk.lit (Char.ofNat (8 * octVal d1 + octVal d2)) :: acc) rest3
              else if isOctChar d1 then
                parseTemplateAux fuel
                  (ReplChunk.lit (Char.ofNat (octVal d1)) :: acc) (d2 :: rest3)
              else
                parseTemplateAux fuel
                  (ReplChunk.lit (Char.ofNat 0) :: acc) (d1 :: d2 :: rest3)
            | [d1] =>
              if isOctChar d1 then
                parseTemplateAux fuel (ReplChunk.lit (Char.ofNat (octVal d1)) :: acc) []
              else
                parseTemplateAux fuel (ReplChunk.lit (Char.ofNat 0) :: acc) [d1]
            | [] => parseTemplateAux fuel (ReplChunk.lit (Char.ofNat 0) :: acc) []
          else if e1.isDigit then
            match rest2 with
            | d2 :: d3 :: rest3 =>
              if d2.isDigit && isOctChar e1 && isOctChar d2 && isOctChar d3 then
                let v := 64 * octVal e1 + 8 * octVal d2 + octVal d3
                if v > 255 then
                  Except.error "octal escape value outside of range 0-0o377"
                else parseTemplateAux fuel (ReplChunk.lit (Char.ofNat v) :: acc) rest3
              else Except.error "invalid group reference"
            | _ => Except.error "invalid group reference"
          else
            match escChar e1 with
            | some ch => parseTemplateAux fuel (ReplChunk.lit ch :: acc) rest2
            | none =>
              if e1.isAlpha then Except.error "bad escape"
              else
                parseTemplateAux fuel
                  (ReplChunk.lit e1 :: ReplChunk.lit '\\' :: acc) rest2
      else parseTemplateAux fuel (ReplChunk.lit c :: acc) rest

/-- Compilation of the `re.sub` replacement template, specialised to the
zero-group marker pattern.  CPython compiles the template *before*
scanning the document, so a bad escape raises `re.error` (or, for an
unknown group name, `IndexError`) even when the pattern never matches. -/
def parseTemplate (repl : List Char) : Except String (List ReplChunk) :=
  parseTemplateAux (repl.length + 1) [] repl

/-- Instantiation of a compiled template at one match: `group0` expands to
the whole matched text. -/
def expandTemplate (chunks : List ReplChunk) (matched : List Char) : List Char :=
  (chunks.map (fun ch =>
    match ch with
    | ReplChunk.lit c => [c]
    | ReplChunk.group0 => matched)).flatten

/-- One engine step of
`re.sub(s ++ ".*?" ++ e, repl, doc, flags=re.DOTALL)` after the
replacement template has been compiled: find the leftmost occurrence of
`s`; with `re.DOTALL` the lazy `.*?` then runs to the earliest following
occurrence of `e`; the match is replaced by the template expanded at the
matched text and scanning resumes after it (the inserted text is not
rescanned).  If `s` is not found, or no `e` follows it, there is no match
anywhere (a later `s` cannot have a following `e` that the first one
lacks) and the document is returned unchanged.  The fuel only bounds the
recursion; `pyResub` supplies enough for nonempty markers. -/
def pyResubFuel (s e : List Char) (chunks : List ReplChunk) : Nat → List Char → List Char
  | 0, doc => doc
  | fuel + 1, doc =>
    match splitFirst s doc with
    | none => doc
    | some (pre, rest) =>
      match splitFirst e rest with
      | none => doc
      | some (mid, tail) =>
        pre ++ expandTemplate chunks (s ++ mid ++ e)
          ++ pyResubFuel s e chunks fuel tail

/-- Embedding of the scanning phase of `re.sub` with pattern
`s ++ ".*?" ++ e` and `re.DOTALL` for nonempty literal delimiters `s`,
`e`, inserting the compiled replacement template `chunks` at each match. -/
def pyResub (s e : List Char) (chunks : List ReplChunk) (doc : List Char) : List Char :=
  pyResubFuel s e chunks (doc.length + 1) doc

/-- Whether the `re.sub` pattern matches anywhere in the document: some
occurrence of the start marker is followed by an occurrence of the end
marker. -/
def markerPairFound (doc : List Char) : Bool :=
  match splitFirst startMarker doc with
  | none => false
  | some (_, rest) => (splitFirst endMarker rest).isSome

/-- The text transformation of `update_html` (lines 160-165): `re.sub`
first compiles the replacement template — raising for a bad escape or an
invalid group reference in the new card, even if the markers never occur
in the document — and then replaces every (in the intended design: the
single) marker-delimited region with the expanded template. -/
def update_html (new_card_html html_content : List Char) : Except String (List Char) :=
  match parseTemplate new_card_html with
  | Except.error e => Except.error e
  | Except.ok chunks => Except.ok (pyResub startMarker endMarker chunks html_content)

/-- A file write performed by `update_html`, in program order: first the
backup (`index.html.bak`), then the target (`index.html`). -/
inductive FileWrite where
  | bak (content : List Char)
  | target (content : List Char)
deriving Repr, DecidableEq

/-- The write trace of `update_html` (lines 152-165): the backup is
written first, unconditionally, with exactly the document text just read;
the patched text is written to the target afterwards — unless `re.sub`
raises on the replacement template, in which case the run stops after the
backup and the target is left untouched. -/
def update_html_writes (new_card_html html_content : List Char) : List FileWrite :=
  match update_html new_card_html html_content with
  | Except.error _ => [FileWrite.bak html_content]
  | Except.ok new_content =>
    [FileWrite.bak html_content, FileWrite.target new_content]

/-! ## Concrete fixtures used by witnesses and counterexamples -/

/-- A book with every field present. -/
def bookA : Book :=
  ⟨"A Book", "Jane Doe", "cover.jpg", "https://example.com/a", "Amazon", "Great read."⟩

/-- A book with an empty author and a remote image. -/
def bookB : Book :=
  ⟨"B Book", "", "https://cdn.example.com/b.jpg", "https://example.com/b", "Bookshop", "Also good."⟩

/-- A third book with a title that occurs nowhere else. -/
def bookZ : Book :=
  ⟨"ZZZBOOKTHREE", "Zed", "z.jpg", "https://example.com/z", "Zstore", "Third."⟩

/-- A two-book configuration with ordinary field values. -/
def cfgAB : ReadingData := ⟨[bookA, bookB], "Two books this month."⟩

/-- A three-book configuration. -/
def cfg3 : ReadingData := ⟨[bookA, bookB, bookZ], "Three books."⟩

/-- A configuration whose summary text is exactly the end marker, so the
rendered fragment contains an end marker strictly inside its interior. -/
def cfgMarkerSummary : ReadingData := ⟨[bookA], endMarkerS⟩

/-- A configuration whose description carries the two characters `\1`, a
group reference once embedded in the rendered card: `re.sub` rejects the
resulting replacement template (`invalid group reference`), since the
marker pattern has no capture groups. -/
def cfgBackslash : ReadingData :=
  ⟨[⟨"A Book", "Jane Doe", "cover.jpg", "https://example.com/a", "Amazon",
     "See footnote \\1."⟩], "Summary."⟩

/-- Document text before the start marker in the test document. -/
def docPre : List Char := "<html><body>\n".data

/-- Stale card text between the markers in the test document. -/
def docMid : List Char := "\nOLD CARD\n".data

/-- Document text after the end marker in the test document. -/
def docTail : List Char := "\n</body></html>".data

/-- The test document: one marker-delimited region. -/
def docOne : List Char := docPre ++ startMarker ++ docMid ++ endMarker ++ docTail

/-! ## Lemmas about `splitFirst` and `pyResub` -/

/-- The tail-recursive scanner agrees with the structural reference
version, up to the prefix accumulated so far. -/
theorem splitFirstAux_eq_go (pat : List Char) :
    ∀ (l acc : List Char), splitFirstAux pat acc l
      = (splitFirstGo pat l).map (fun pr => (acc.reverse ++ pr.1, pr.2)) := by
  intro l
  induction l with
  | nil =>
    intro acc
    simp only [splitFirstAux, splitFirstGo]
    by_cases hp : pat.isPrefixOf ([] : List Char) = true
    · rw [if_pos hp, if_pos hp]; simp
    · rw [if_neg hp, if_neg hp]; rfl
  | cons c cs ih =>
    intro acc
    simp only [splitFirstAux, splitFirstGo]
    by_cases hp : pat.isPrefixOf (c :: cs) = true
    · rw [if_pos hp, if_pos hp]; simp
    · rw [if_neg hp, if_neg hp, ih (c :: acc)]
      cases hgo : splitFirstGo pat cs with
      | none => simp
      | some pr =>
        obtain ⟨p, r⟩ := pr
        simp

/-- The scanner `splitFirst` agrees with the structural reference version. -/
theorem splitFirst_eq_go (pat l : List Char) : splitFirst pat l = splitFirstGo pat l := by
  rw [splitFirst, splitFirstAux_eq_go]
  cases hgo : splitFirstGo pat l with
  | none => rfl
  | some pr =>
    obtain ⟨p, r⟩ := pr
    simp

/-- Soundness of the scanner: a hit really splits the list. -/
theorem splitFirstGo_eq_append (pat : List Char) :
    ∀ (l p r : List Char), splitFirstGo pat l = some (p, r) → l = p ++ pat ++ r := by
  intro l
  induction l with
  | nil =>
    intro p r h
    simp only [splitFirstGo] at h
    by_cases hp : pat.isPrefixOf ([] : List Char) = true
    · have hnil : pat = [] := List.prefix_nil.mp ( List.isPrefixOf_iff_prefix.mp hp)
      rw [if_pos hp] at h
      cases h
      simp [hnil]
    · rw [if_neg hp] at h
      cases h
  | cons c cs ih =>
    intro p r h
    simp only [splitFirstGo] at h
    by_cases hp : pat.isPrefixOf (c :: cs) = true
    · rw [if_pos hp] at h
      cases h
      obtain ⟨t, ht⟩ := List.isPrefixOf_iff_prefix.mp hp
      conv_lhs => rw [← ht]
      rw [← ht, List.drop_left]
      simp
    · rw [if_neg hp] at h
      cases hcs : splitFirstGo pat cs with
      | none => rw [hcs] at h; cases h
      | some pr =>
        obtain ⟨p', r'⟩ := pr
        rw [hcs] at h
        simp only [Option.some.injEq, Prod.mk.injEq] at h
        obtain ⟨rfl, rfl⟩ := h
        rw [List.cons_append, List.cons_append, ih p' r' hcs]

/-- Soundness of `splitFirst` itself. -/
theorem splitFirst_eq_append (pat l p r : List Char)
    (h : splitFirst pat l = some (p, r)) : l = p ++ pat ++ r :=
  splitFirstGo_eq_append pat l p r (by rw [← splitFirst_eq_go]; exact h)

/-- If `pat` is a literal prefix, the scanner hits at position zero. -/
theorem splitFirstGo_of_isPrefixOf (pat l : List Char) (h : pat.isPrefixOf l = true) :
    splitFirstGo pat l = some ([], l.drop pat.length) := by
  cases l with
  | nil =>
    have hnil : pat = [] := List.prefix_nil.mp ( List.isPrefixOf_iff_prefix.mp h)
    simp [splitFirstGo, hnil]
  | cons c cs => simp [splitFirstGo, h]

/-- If `pat` is a literal prefix, `splitFirst` hits at position zero. -/
theorem splitFirst_of_isPrefixOf (pat l : List Char) (h : pat.isPrefixOf l = true) :
    splitFirst pat l = some ([], l.drop pat.length) := by
  rw [splitFirst_eq_go]
  exact splitFirstGo_of_isPrefixOf pat l h

/-- Completeness of the scanner: it finds every pattern that occurs. -/
theorem splitFirstGo_isSome_of_occurs (pat t : List Char) :
    ∀ (s : List Char), (splitFirstGo pat (s ++ pat ++ t)).isSome = true := by
  intro s
  induction s with
  | nil =>
    have hp : pat.isPrefixOf (pat ++ t) = true :=
      List.isPrefixOf_iff_prefix.mpr (List.prefix_append pat t)
    simp [splitFirstGo_of_isPrefixOf pat (pat ++ t) hp]
  | cons c s' ih =>
    show (splitFirstGo pat (c :: (s' ++ pat ++ t))).isSome = true
    by_cases hp : pat.isPrefixOf (c :: (s' ++ pat ++ t)) = true
    · rw [splitFirstGo_of_isPrefixOf _ _ hp]
      simp
    · simp only [splitFirstGo]
      rw [if_neg hp]
      cases hcs : splitFirstGo pat (s' ++ pat ++ t) with
      | none => rw [hcs] at ih; simp at ih
      | some pr =>
        obtain ⟨p', r'⟩ := pr
        simp

/-- Completeness of `splitFirst`. -/
theorem splitFirst_isSome_of_occurs (pat t s : List Char) :
    (splitFirst pat (s ++ pat ++ t)).isSome = true := by
  rw [splitFirst_eq_go]
  exact splitFirstGo_isSome_of_occurs pat t s

/-- The empty pattern occurs in every list. -/
theorem containsSub_nil_left (l : List Char) : containsSub [] l = true := by
  cases l with
  | nil => simp [containsSub, splitFirst_eq_go, splitFirstGo, List.isPrefixOf]
  | cons c cs => simp [containsSub, splitFirst_eq_go, splitFirstGo, List.isPrefixOf]

/-- Occurrence is preserved by extending the list on the left. -/
theorem containsSub_cons (pat cs : List Char) (c : Char)
    (h : containsSub pat cs = true) : containsSub pat (c :: cs) = true := by
  simp only [containsSub, splitFirst_eq_go] at h ⊢
  simp only [splitFirstGo]
  by_cases hp : pat.isPrefixOf (c :: cs) = true
  · simp [hp]
  · rw [if_neg hp]
    cases hcs : splitFirstGo pat cs with
    | none => rw [hcs] at h; simp at h
    | some pr => obtain ⟨p', r'⟩ := pr; simp

/-- An occurrence anywhere makes `containsSub` true. -/
theorem containsSub_of_occurs (pat l : List Char) (h : pat <:+: l) :
    containsSub pat l = true := by
  obtain ⟨s, t, rfl⟩ := h
  simp only [containsSub]
  rw [splitFirst_isSome_of_occurs pat t s]

/-- The key positioning lemma: if `pat` does not occur in
`(pre ++ pat).dropLast` — which contains precisely the characters an
occurrence starting before position `pre.length` could use — then
`splitFirst` splits exactly at `pre`. -/
theorem splitFirstGo_append_of_clean (pat : List Char) :
    ∀ (pre rest : List Char),
      containsSub pat ((pre ++ pat).dropLast) = false →
      splitFirstGo pat (pre ++ pat ++ rest) = some (pre, rest) := by
  intro pre
  induction pre with
  | nil =>
    intro rest _
    have hp : pat.isPrefixOf (pat ++ rest) = true :=
      List.isPrefixOf_iff_prefix.mpr (List.prefix_append pat rest)
    rw [List.nil_append, splitFirstGo_of_isPrefixOf pat (pat ++ rest) hp, List.drop_left]
  | cons c pre' ih =>
    intro rest h
    have hpat : pat ≠ [] := by
      intro hnil
      rw [hnil, containsSub_nil_left] at h
      cases h
    have hne : pre' ++ pat ≠ [] := by
      intro habs
      exact hpat (List.append_eq_nil.mp habs).2
    have hdl : ((c :: pre') ++ pat).dropLast = c :: (pre' ++ pat).dropLast := by
      cases hpp : pre' ++ pat with
      | nil => exact absurd hpp hne
      | cons x xs => rw [List.cons_append, hpp, List.dropLast_cons₂]
    rw [hdl] at h
    have h' : containsSub pat ((pre' ++ pat).dropLast) = false := by
      cases hc : containsSub pat ((pre' ++ pat).dropLast) with
      | false => rfl
      | true => rw [containsSub_cons pat _ c hc] at h; cases h
    have hnp : ¬ pat.isPrefixOf (c :: (pre' ++ pat ++ rest)) = true := by
      intro habs
      have hpfx : pat <+: (c :: (pre' ++ pat ++ rest)) :=
        List.isPrefixOf_iff_prefix.mp habs
      have hdp : (c :: (pre' ++ pat).dropLast) <+: (c :: (pre' ++ pat ++ rest)) := by
        obtain ⟨tl, htl⟩ := ( List.dropLast_prefix (pre' ++ pat)).trans
          (List.prefix_append (pre' ++ pat) rest)
        exact ⟨tl, by rw [List.cons_append, htl, List.append_assoc]⟩
      have hlen : pat.length ≤ (c :: (pre' ++ pat).dropLast).length := by
        simp only [List.length_cons, List.length_dropLast, List.length_append]
        have : 0 < pat.length := List.length_pos.mpr hpat
        omega
      have hinpfx : pat <+: (c :: (pre' ++ pat).dropLast) :=
        List.prefix_of_prefix_length_le hpfx hdp hlen
      have hinf : pat <:+: (c :: (pre' ++ pat).dropLast) := by
        obtain ⟨t, ht⟩ := hinpfx
        exact ⟨[], t, by simpa using ht⟩
      have : containsSub pat (c :: (pre' ++ pat).dropLast) = true :=
        containsSub_of_occurs pat _ hinf
      rw [this] at h
      cases h
    show splitFirstGo pat (c :: (pre' ++ pat ++ rest)) = some (c :: pre', rest)
    simp only [splitFirstGo]
    rw [if_neg hnp, ih rest h']

/-- The positioning lemma, stated for `splitFirst`. -/
theorem splitFirst_append_of_clean (pat pre rest : List Char)
    (h : containsSub pat ((pre ++ pat).dropLast) = false) :
    splitFirst pat (pre ++ pat ++ rest) = some (pre, rest) := by
  rw [splitFirst_eq_go]
  exact splitFirstGo_append_of_clean pat pre rest h

/-- Reflexivity of `eqChars` (used to refute concrete equalities). -/
theorem eqChars_refl : ∀ (l : List Char), eqChars l l = true := by
  intro l
  induction l with
  | nil => rfl
  | cons c cs ih => simp [eqChars, ih]

/-- Expanding an all-literal template inserts exactly the original text,
whatever was matched. -/
theorem expandTemplate_lit (m : List Char) :
    ∀ (l : List Char), expandTemplate (litTemplate l) m = l := by
  intro l
  induction l with
  | nil => rfl
  | cons c cs ih =>
    have hstep : expandTemplate (litTemplate (c :: cs)) m
        = c :: expandTemplate (litTemplate cs) m := rfl
    rw [hstep, ih]

/-- A replacement that contains no backslash compiles to the all-literal
template (worker version, generalised over fuel and accumulator). -/
theorem parseTemplateAux_no_backslash :
    ∀ (l : List Char) (acc : List ReplChunk) (fuel : Nat),
      l.length < fuel → containsSub ['\\'] l = false →
      parseTemplateAux fuel acc l = Except.ok (acc.reverse ++ litTemplate l) := by
  intro l
  induction l with
  | nil =>
    intro acc fuel hf _
    cases fuel with
    | zero => omega
    | succ n => simp [parseTemplateAux, litTemplate]
  | cons c cs ih =>
    intro acc fuel hf hbs
    cases fuel with
    | zero => simp at hf
    | succ n =>
      have hcne : ¬ c = '\\' := by
        intro hc
        subst hc
        have : containsSub ['\\'] ('\\' :: cs) = true :=
          containsSub_of_occurs _ _ ⟨[], cs, rfl⟩
        rw [this] at hbs
        cases hbs
      have hcs : containsSub ['\\'] cs = false := by
        cases hc : containsSub ['\\'] cs with
        | false => rfl
        | true => rw [containsSub_cons _ _ c hc] at hbs; cases hbs
      have hn : cs.length < n := by
        simp only [List.length_cons] at hf
        omega
      simp only [parseTemplateAux]
      rw [if_neg hcne, ih (ReplChunk.lit c :: acc) n hn hcs]
      simp [litTemplate]

/-- A replacement that contains no backslash compiles to the all-literal
template; in particular its compilation never raises. -/
theorem parseTemplate_no_backslash (repl : List Char)
    (hbs : containsSub ['\\'] repl = false) :
    parseTemplate repl = Except.ok (litTemplate repl) := by
  unfold parseTemplate
  rw [parseTemplateAux_no_backslash repl [] (repl.length + 1) (by omega) hbs]
  simp

/-- Reflexivity of `eqExceptChars`. -/
theorem eqExceptChars_refl : ∀ (x : Except String (List Char)), eqExceptChars x x = true := by
  intro x
  cases x with
  | error e => rfl
  | ok l => exact eqChars_refl l

/-- If the start delimiter does not occur, one `re.sub` scanning pass is
the identity, for any fuel. -/
theorem pyResubFuel_start_none (s e : List Char) (chunks : List ReplChunk)
    (fuel : Nat) (doc : List Char)
    (h : splitFirst s doc = none) : pyResubFuel s e chunks fuel doc = doc := by
  cases fuel with
  | zero => rfl
  | succ n => simp [pyResubFuel, h]

/-- If no end delimiter follows the first start delimiter, one `re.sub`
scanning pass is the identity, for any fuel. -/
theorem pyResubFuel_end_none (s e : List Char) (chunks : List ReplChunk)
    (fuel : Nat) (doc pre rest : List Char)
    (hs : splitFirst s doc = some (pre, rest)) (he : splitFirst e rest = none) :
    pyResubFuel s e chunks fuel doc = doc := by
  cases fuel with
  | zero => rfl
  | succ n => simp [pyResubFuel, hs, he]

/-- A single delimited region, with no further start delimiter in the
tail, is replaced in one step by the template expanded at the matched
region, and the rest of the document is untouched. -/
theorem pyResubFuel_single (s e : List Char) (chunks : List ReplChunk)
    (pre mid tail : List Char) (fuel : Nat)
    (h1 : containsSub s ((pre ++ s).dropLast) = false)
    (h2 : containsSub e ((mid ++ e).dropLast) = false)
    (h3 : containsSub s tail = false) :
    pyResubFuel s e chunks (fuel + 1) (pre ++ s ++ (mid ++ e ++ tail)) =
      pre ++ expandTemplate chunks (s ++ mid ++ e) ++ tail := by
  have hsplit : splitFirst s (pre ++ s ++ (mid ++ e ++ tail)) =
      some (pre, mid ++ e ++ tail) :=
    splitFirst_append_of_clean s pre (mid ++ e ++ tail) h1
  have hsplit2 : splitFirst e (mid ++ e ++ tail) = some (mid, tail) :=
    splitFirst_append_of_clean e mid tail h2
  have htail : splitFirst s tail = none := by
    cases hc : splitFirst s tail with
    | none => rfl
    | some pr => simp [containsSub, hc] at h3
  simp only [List.append_assoc] at hsplit hsplit2
  simp only [pyResubFuel, List.append_assoc, hsplit, hsplit2]
  rw [pyResubFuel_start_none s e chunks fuel tail htail]

/-- Version of `pyResubFuel_single` for `pyResub` itself. -/
theorem pyResub_single (s e : List Char) (chunks : List ReplChunk)
    (pre mid tail : List Char)
    (h1 : containsSub s ((pre ++ s).dropLast) = false)
    (h2 : containsSub e ((mid ++ e).dropLast) = false)
    (h3 : containsSub s tail = false) :
    pyResub s e chunks (pre ++ s ++ (mid ++ e ++ tail)) =
      pre ++ expandTemplate chunks (s ++ mid ++ e) ++ tail := by
  unfold pyResub
  exact pyResubFuel_single s e chunks pre mid tail _ h1 h2 h3

/-- The patch applied to a single clean region with a backslash-free
replacement: the region becomes exactly the replacement text. -/
theorem update_html_single (repl pre mid tail : List Char)
    (hbs : containsSub ['\\'] repl = false)
    (h1 : containsSub startMarker ((pre ++ startMarker).dropLast) = false)
    (h2 : containsSub endMarker ((mid ++ endMarker).dropLast) = false)
    (h3 : containsSub startMarker tail = false) :
    update_html repl (pre ++ startMarker ++ mid ++ endMarker ++ tail)
      = Except.ok (pre ++ repl ++ tail) := by
  have hdoc : pre ++ startMarker ++ mid ++ endMarker ++ tail
      = pre ++ startMarker ++ (mid ++ endMarker ++ tail) := by
    simp [List.append_assoc]
  unfold update_html
  rw [parseTemplate_no_backslash repl hbs]
  show Except.ok (pyResub startMarker endMarker (litTemplate repl)
      (pre ++ startMarker ++ mid ++ endMarker ++ tail))
    = Except.ok (pre ++ repl ++ tail)
  rw [hdoc, pyResub_single startMarker endMarker (litTemplate repl) pre mid tail h1 h2 h3,
    expandTemplate_lit _ repl]

/-! ## Lemmas about the renderer -/

/-- With two or more books, the image section renders the two-book layout
from the first two books only; each book's `src` is its own resolved
image. -/
theorem image_html_cons_cons (b0 b1 : Book) (rest : List Book) :
    image_html (b0 :: b1 :: rest) =
      some (img_two b0.title (get_image_src b0.image)
        b1.title (get_image_src b1.image)) := by
  rw [image_html, if_neg]
  · simp
  · simp

/-- The rendered card decomposes as start marker, interior, end marker. -/
theorem generate_html_eq (data : ReadingData) (frag : String)
    (hgen : generate_html data = some frag) :
    ∃ body : String, card_body data = some body ∧
      frag.data = startMarker ++ body.data ++ endMarker := by
  cases himg : image_html data.books with
  | none => rw [generate_html, himg] at hgen; cases hgen
  | some ih =>
    rw [generate_html, himg] at hgen
    simp only [Option.map_some', Option.some.injEq] at hgen
    refine ⟨cardChunk1 ++ ih ++ cardChunk2 ++ data.summary ++ cardChunk3
      ++ details_html data.books ++ cardChunk4 ++ actions_html data.books
      ++ cardChunk5, ?_, ?_⟩
    · rw [card_body, himg]; rfl
    · rw [← hgen]
      simp [startMarker, endMarker, List.append_assoc]

/-- If there is at least one book, the image section succeeds. -/
theorem image_html_isSome_of_ne_nil (books : List Book) (hne : books ≠ []) :
    ∃ ih, image_html books = some ih := by
  match books with
  | [] => exact absurd rfl hne
  | [b0] => exact ⟨img_one b0.title (get_image_src b0.image), by simp [image_html]⟩
  | b0 :: b1 :: rest => exact ⟨_, image_html_cons_cons b0 b1 rest⟩

/-! ## The claims -/

set_option maxRecDepth 400000 in
/-- C1 counterexample: a configuration whose description carries the two
characters `\1` renders to a fragment that `re.sub` rejects as a
replacement template (`invalid group reference`, the pattern has no
capture groups), so on a document with a single well-formed marker region
the patch raises instead of replacing the region — the claim is false as
stated. -/
theorem c1_counterexample :
    update_html ((generate_html cfgBackslash).getD "").data docOne
      = Except.error "invalid group reference" := by
  rfl

/-- C1 (amended): for every target document containing the start marker
`<!-- Reading Now -->` followed by the end marker
`<!-- Latest Creative Work -->` (as its only marker-delimited region,
formalised by: no occurrence of the start marker begins before the one
shown, the end marker shown is the first one after it, and no further
start marker occurs in the tail), and **provided the rendered fragment
contains no backslash** (so `re.sub`'s compiled replacement template is
the fragment itself), the patch succeeds, replaces the region with the
rendered fragment, and every character before the start marker and after
the end marker is identical in the output.  The proviso is forced by
`c1_counterexample`: backslashes in the fragment are interpreted as
replacement-template escapes, raising `re.error` or transforming the
inserted text. -/
theorem c1_patch_replaces_region_preserves_frame
    (data : ReadingData) (frag : String) (pre mid tail : List Char)
    (_hgen : generate_html data = some frag)
    (hbs : containsSub ['\\'] frag.data = false)
    (h1 : containsSub startMarker ((pre ++ startMarker).dropLast) = false)
    (h2 : containsSub endMarker ((mid ++ endMarker).dropLast) = false)
    (h3 : containsSub startMarker tail = false) :
    update_html frag.data (pre ++ startMarker ++ mid ++ endMarker ++ tail)
      = Except.ok (pre ++ frag.data ++ tail) :=
  update_html_single frag.data pre mid tail hbs h1 h2 h3

set_option maxRecDepth 400000 in
/-- Witness for C1 (amended) at a concrete configuration and document. -/
theorem c1_witness :
    update_html ((generate_html cfgAB).getD "").data docOne
      = Except.ok (docPre ++ ((generate_html cfgAB).getD "").data ++ docTail) :=
  c1_patch_replaces_region_preserves_frame cfgAB ((generate_html cfgAB).getD "")
    docPre docMid docTail rfl (by decide) rfl rfl rfl

/-- C2 (amended): render-then-patch is idempotent for a document whose
only marker-delimited region is as in C1, **provided** the rendered
fragment contains no backslash (so its replacement template compiles to
the fragment itself) and its interior contains no occurrence of the end
marker (no configuration field injects `<!-- Latest Creative Work -->`);
patching the already-patched document again with the same fragment leaves
it byte-identical.  Both provisos are forced by counterexamples: a field
equal to the end-marker text breaks idempotence (`c2_counterexample`),
and a field with a `\1` escape makes the very first patch raise
(`c1_counterexample`). -/
theorem c2_patch_idempotent
    (data : ReadingData) (frag body : String) (pre mid tail : List Char)
    (hgen : generate_html data = some frag)
    (hbody : card_body data = some body)
    (hbs : containsSub ['\\'] frag.data = false)
    (h1 : containsSub startMarker ((pre ++ startMarker).dropLast) = false)
    (h2 : containsSub endMarker ((mid ++ endMarker).dropLast) = false)
    (h3 : containsSub startMarker tail = false)
    (h4 : containsSub endMarker ((body.data ++ endMarker).dropLast) = false) :
    (update_html frag.data (pre ++ startMarker ++ mid ++ endMarker ++ tail)).bind
        (update_html frag.data)
      = update_html frag.data (pre ++ startMarker ++ mid ++ endMarker ++ tail) := by
  obtain ⟨body', hbody', hfrag⟩ := generate_html_eq data frag hgen
  have hb : body' = body := by
    rw [hbody] at hbody'
    exact (Option.some.inj hbody').symm
  rw [hb] at hfrag
  have hinner : update_html frag.data (pre ++ startMarker ++ mid ++ endMarker ++ tail)
      = Except.ok (pre ++ frag.data ++ tail) :=
    update_html_single frag.data pre mid tail hbs h1 h2 h3
  rw [hinner]
  show update_html frag.data (pre ++ frag.data ++ tail)
      = Except.ok (pre ++ frag.data ++ tail)
  have hdoc2 : pre ++ frag.data ++ tail
      = pre ++ startMarker ++ body.data ++ endMarker ++ tail := by
    rw [hfrag]
    simp [List.append_assoc]
  conv_lhs => rw [hdoc2]
  exact update_html_single frag.data pre body.data tail hbs h1 h4 h3

set_option maxRecDepth 400000 in
/-- Witness for C2 (amended) at a concrete configuration and document. -/
theorem c2_witness :
    (update_html ((generate_html cfgAB).getD "").data docOne).bind
        (update_html ((generate_html cfgAB).getD "").data)
      = update_html ((generate_html cfgAB).getD "").data docOne :=
  c2_patch_idempotent cfgAB ((generate_html cfgAB).getD "")
    ((card_body cfgAB).getD "") docPre docMid docTail rfl rfl (by decide)
    rfl rfl rfl rfl

set_option maxRecDepth 400000 in
/-- C2 counterexample: with the summary field set to the end-marker text,
patching the already-patched document again duplicates part of the card,
so render-then-patch is *not* idempotent for every configuration. -/
theorem c2_counterexample :
    (update_html ((generate_html cfgMarkerSummary).getD "").data docOne).bind
        (update_html ((generate_html cfgMarkerSummary).getD "").data)
      ≠ update_html ((generate_html cfgMarkerSummary).getD "").data docOne := by
  intro habs
  have hfalse : eqExceptChars
      ((update_html ((generate_html cfgMarkerSummary).getD "").data docOne).bind
        (update_html ((generate_html cfgMarkerSummary).getD "").data))
      (update_html ((generate_html cfgMarkerSummary).getD "").data docOne) = false := by
    decide
  rw [habs, eqExceptChars_refl] at hfalse
  cases hfalse

set_option maxRecDepth 400000 in
/-- C3 counterexample: with three books the rendered fragment contains the
third book's (unique) title — the loops that build the detail list and the
action buttons run over *all* parsed books — so the claim that the output
reflects only the first two books is false. -/
theorem c3_counterexample :
    containsSub "ZZZBOOKTHREE".data ((generate_html cfg3).getD "").data = true := by
  decide

/-- C3 (amended): with three or more books the *image section* uses only
the first two books (it is unchanged under any replacement of the extras),
but the detail list and the action buttons contain one entry per parsed
book, extras included. -/
theorem c3_amended_extras_in_details_actions (b0 b1 : Book) (rest rest' : List Book) :
    image_html (b0 :: b1 :: rest) = image_html (b0 :: b1 :: rest') ∧
    (details_items (b0 :: b1 :: rest)).length = (b0 :: b1 :: rest).length ∧
    (action_items (b0 :: b1 :: rest)).length = (b0 :: b1 :: rest).length := by
  refine ⟨?_, ?_, ?_⟩
  · rw [image_html_cons_cons, image_html_cons_cons]
  · simp [details_items]
  · simp [action_items]

/-- C4 counterexample: on a configuration with zero books the renderer does
*not* return a degenerate fragment — the `else` branch of the image section
subscripts `books[0]` and raises `IndexError` (modelled as `none`). -/
theorem c4_counterexample : generate_html ⟨[], "Some summary."⟩ = none := rfl

/-- C4 (amended): `generate_html` is not total on an empty book list: for
every summary it fails with `IndexError` before producing any output. -/
theorem c4_amended_empty_books_fail (s : String) : generate_html ⟨[], s⟩ = none := rfl

/-- C5: image resolution returns the `image` value unchanged when it starts
with `http://` or `https://` and otherwise prepends `/assets/img/`; in
particular `cover.jpg` resolves to `/assets/img/cover.jpg` and
`https://cdn.example.com/c.jpg` to itself; and in the two-book layout each
book's `src` is `get_image_src` of its own `image` field, independent of
the other book. -/
theorem c5_image_resolution (v w : String)
    (hv : ("http://".data.isPrefixOf v.data || "https://".data.isPrefixOf v.data) = true)
    (hw : ("http://".data.isPrefixOf w.data || "https://".data.isPrefixOf w.data) = false) :
    get_image_src v = v ∧
    get_image_src w = "/assets/img/" ++ w ∧
    get_image_src "cover.jpg" = "/assets/img/cover.jpg" ∧
    get_image_src "https://cdn.example.com/c.jpg" = "https://cdn.example.com/c.jpg" ∧
    (∀ b0 b1 : Book, image_html [b0, b1] =
      some (img_two b0.title (get_image_src b0.image) b1.title (get_image_src b1.image))) := by
  refine ⟨?_, ?_, by decide, by decide, ?_⟩
  · unfold get_image_src
    rw [if_pos hv]
  · unfold get_image_src
    rw [if_neg (by simp [hw])]
  · intro b0 b1
    exact image_html_cons_cons b0 b1 []

/-- Witness for C5 at concrete image values. -/
theorem c5_witness :
    get_image_src "https://cdn.example.com/c.jpg" = "https://cdn.example.com/c.jpg" ∧
    get_image_src "cover.jpg" = "/assets/img/" ++ "cover.jpg" ∧
    get_image_src "cover.jpg" = "/assets/img/cover.jpg" ∧
    get_image_src "https://cdn.example.com/c.jpg" = "https://cdn.example.com/c.jpg" ∧
    (∀ b0 b1 : Book, image_html [b0, b1] =
      some (img_two b0.title (get_image_src b0.image) b1.title (get_image_src b1.image))) :=
  c5_image_resolution "https://cdn.example.com/c.jpg" "cover.jpg" (by decide) (by decide)

set_option maxRecDepth 400000 in
/-- C6 counterexample: the patch is not always a silent no-op on a
marker-free document: a rendered fragment carrying a `\1` escape makes
`re.sub` raise `invalid group reference` — the replacement template is
compiled before scanning, marker pair or not — so the claim's silent
no-op (no error raised) is false as stated. -/
theorem c6_counterexample :
    update_html ((generate_html cfgBackslash).getD "").data
        "hello, no markers here".data
      = Except.error "invalid group reference" := by
  rfl

/-- C6 (amended): provided the replacement template compiles (in
particular whenever the rendered fragment contains no backslash), the
patch on a target document in which the marker pair is not found (no
start marker at all, or no end marker after the first start marker) is a
silent no-op: the resulting document text equals the input and no error
is raised.  The compilation proviso is forced by `c6_counterexample`:
`re.sub` compiles the replacement template up front and raises on a bad
one even when the pattern never matches. -/
theorem c6_no_markers_noop (repl doc : List Char) (chunks : List ReplChunk)
    (hc : parseTemplate repl = Except.ok chunks)
    (h : markerPairFound doc = false) :
    update_html repl doc = Except.ok doc := by
  unfold update_html
  rw [hc]
  show Except.ok (pyResub startMarker endMarker chunks doc) = Except.ok doc
  unfold pyResub
  cases hs : splitFirst startMarker doc with
  | none => rw [pyResubFuel_start_none startMarker endMarker chunks _ doc hs]
  | some pr =>
    obtain ⟨p, r⟩ := pr
    simp only [markerPairFound, hs] at h
    have he : splitFirst endMarker r = none := by
      cases he' : splitFirst endMarker r with
      | none => rfl
      | some x => rw [he'] at h; simp at h
    rw [pyResubFuel_end_none startMarker endMarker chunks _ doc p r hs he]

/-- Witness for C6 (amended) on a concrete marker-free document. -/
theorem c6_witness :
    update_html "NEW".data "hello, no markers here".data
      = Except.ok "hello, no markers here".data :=
  c6_no_markers_noop "NEW".data "hello, no markers here".data
    (litTemplate "NEW".data) rfl rfl

/-- C7: parsing never fails (the embedding of `parse_yaml` is a total
function); a configuration whose summary patterns (quoted, then unquoted)
both fail yields the empty summary; a field whose quoted and unquoted
patterns both fail in a block resolves to the empty string; and when the
double-quoted pattern matches, its (stripped) group is taken, regardless
of the unquoted fallback. -/
theorem c7_parse_defaults (content b1 b2 : List Char) (f : String) (v : List Char)
    (hs1 : searchLineStarts matchSummaryQuotedAt content = none)
    (hs2 : searchLineStarts (matchFieldUnquotedAt "summary") content = none)
    (hq : searchAt (matchFieldQuotedAt f) b1 = none)
    (hu : searchAt (matchFieldUnquotedAt f) b1 = none)
    (hq2 : searchAt (matchFieldQuotedAt f) b2 = some v) :
    (parse_yaml content).summary = "" ∧
    parseField f b1 = "" ∧
    parseField f b2 = (⟨stripChars v⟩ : String) := by
  refine ⟨?_, ?_, ?_⟩
  · simp [parse_yaml, hs1, hs2]
  · simp [parseField, hq, hu]
  · simp [parseField, hq2]

/-- Witness for C7 on concrete configuration text and blocks. -/
theorem c7_witness :
    (parse_yaml "books:\nnothing else here".data).summary = "" ∧
    parseField "author" "title: Alpha".data = "" ∧
    parseField "author" "title: Alpha\n    author: \"Jane\"\n    author: unquoted too".data
      = (⟨stripChars "Jane".data⟩ : String) :=
  c7_parse_defaults "books:\nnothing else here".data "title: Alpha".data
    "title: Alpha\n    author: \"Jane\"\n    author: unquoted too".data
    "author" "Jane".data rfl rfl rfl rfl rfl

/-- C8: every run that reaches the patch step writes the backup file (the
target document's path plus the fixed `.bak` suffix) first — before any
modification of the target — unconditionally, and its contents equal the
pre-patch document text; the target is rewritten afterwards, and only
when `re.sub` succeeds. -/
theorem c8_backup_before_patch (new_card_html html_content : List Char) :
    (update_html_writes new_card_html html_content).head?
        = some (FileWrite.bak html_content) ∧
    update_html_writes new_card_html html_content
      = FileWrite.bak html_content ::
          (match update_html new_card_html html_content with
           | Except.error _ => []
           | Except.ok new_content => [FileWrite.target new_content]) := by
  cases h : update_html new_card_html html_content with
  | error e => simp [update_html_writes, h]
  | ok out => simp [update_html_writes, h]

/-- C9: the detail list has one item per book, in input order; a book with
a nonempty author renders as `<li>Title (Author): Description</li>` and a
book with an empty author as `<li>Title: Description</li>` (no parentheses
and no stray punctuation). -/
theorem c9_detail_list_format (books : List Book) (b b' : Book) (i j : Nat)
    (hb : books[i]? = some b) (hb' : books[j]? = some b')
    (ha : b.author ≠ "") (ha' : b'.author = "") :
    (details_items books).length = books.length ∧
    (details_items books)[i]? =
      some ("<li>" ++ b.title ++ " (" ++ b.author ++ "): " ++ b.description ++ "</li>") ∧
    (details_items books)[j]? =
      some ("<li>" ++ b'.title ++ ": " ++ b'.description ++ "</li>") := by
  refine ⟨by simp [details_items], ?_, ?_⟩
  · simp only [details_items, List.getElem?_map, hb, Option.map_some']
    simp [detail_item, ha]
  · simp only [details_items, List.getElem?_map, hb', Option.map_some']
    simp [detail_item, ha']

/-- Witness for C9 on a concrete book list (one book with an author, one
without). -/
theorem c9_witness :
    (details_items [bookA, bookB]).length = ([bookA, bookB] : List Book).length ∧
    (details_items [bookA, bookB])[0]? =
      some ("<li>" ++ bookA.title ++ " (" ++ bookA.author ++ "): "
        ++ bookA.description ++ "</li>") ∧
    (details_items [bookA, bookB])[1]? =
      some ("<li>" ++ bookB.title ++ ": " ++ bookB.description ++ "</li>") :=
  c9_detail_list_format [bookA, bookB] bookA bookB 0 1 rfl rfl (by decide) rfl

/-- C10: for every configuration with at least one book the rendered
fragment begins with the literal start marker and ends with the literal
end marker, and the marker pair is found in it — so a patched document
remains patchable by later runs. -/
theorem c10_fragment_keeps_markers (data : ReadingData) (hne : data.books ≠ []) :
    ∃ frag : String, generate_html data = some frag ∧
      startMarker <+: frag.data ∧ endMarker <:+ frag.data ∧
      markerPairFound frag.data = true := by
  obtain ⟨ih, hih⟩ := image_html_isSome_of_ne_nil data.books hne
  have hgen : generate_html data
      = some (startMarkerS ++ cardChunk1 ++ ih ++ cardChunk2 ++ data.summary
          ++ cardChunk3 ++ details_html data.books ++ cardChunk4
          ++ actions_html data.books ++ cardChunk5 ++ endMarkerS) := by
    rw [generate_html, hih]
    rfl
  obtain ⟨body, _, hfrag⟩ := generate_html_eq data _ hgen
  refine ⟨_, hgen, ?_, ?_, ?_⟩
  · rw [hfrag]
    exact ⟨body.data ++ endMarker, by simp [List.append_assoc]⟩
  · rw [hfrag]
    exact ⟨startMarker ++ body.data, rfl⟩
  · have hsp : splitFirst startMarker
        (startMarkerS ++ cardChunk1 ++ ih ++ cardChunk2 ++ data.summary
          ++ cardChunk3 ++ details_html data.books ++ cardChunk4
          ++ actions_html data.books ++ cardChunk5 ++ endMarkerS).data
        = some ([], body.data ++ endMarker) := by
      rw [hfrag, List.append_assoc]
      rw [splitFirst_of_isPrefixOf _ _
        ( List.isPrefixOf_iff_prefix.mpr (List.prefix_append _ _))]
      rw [List.drop_left]
    simp only [markerPairFound, hsp]
    have hApp : body.data ++ endMarker = body.data ++ endMarker ++ [] := by simp
    rw [hApp, splitFirst_isSome_of_occurs endMarker [] body.data]

/-- Witness for C10 at a concrete two-book configuration. -/
theorem c10_witness :
    ∃ frag : String, generate_html cfgAB = some frag ∧
      startMarker <+: frag.data ∧ endMarker <:+ frag.data ∧
      markerPairFound frag.data = true :=
  c10_fragment_keeps_markers cfgAB (by decide)
